import Mathlib

/-
Verification of the AI processor service (backend/app/services/ai_processor.py)
of the Crackedd repository, against its natural-language specification.

The development shallowly embeds the service: the pydantic data model
(backend/app/models/slack.py) becomes Lean structures, the task registry
dict becomes an association list with Python-dict semantics, datetime
values become integers (seconds), and the external collaborators (Slack
fetch, LLM completion calls, FAISS vector store) become an explicit
environment of `Except`-valued functions, since the spec places them
outside the core.  The external langchain text splitter is likewise
treated as an external collaborator and not modelled (documents are the
pre-split corpus that `_prepare_documents` constructs).
-/

/-- Python-style `str.strip()` truthiness helper: the set of ASCII whitespace
characters Python strips from both ends. -/
def isPyWhitespace (c : Char) : Bool :=
  c = ' ' || c = '\t' || c = '\n' || c = '\r' || c = '\x0b' || c = '\x0c'

/-- Python `s.strip()`: drop whitespace from both ends of the string. -/
def pyStrip (s : String) : String :=
  String.mk (((s.toList.dropWhile isPyWhitespace).reverse.dropWhile isPyWhitespace).reverse)

/-- Python `s.split("\n")`: split on every newline, keeping empty fragments
(so `"a\n\nb"` gives `["a", "", "b"]` and `""` gives `[""]`). -/
def pySplitNL (s : String) : List String :=
  let p := s.toList.foldl
    (fun (acc : List String × List Char) c =>
      if c = '\n' then (acc.1 ++ [String.mk acc.2.reverse], ([] : List Char))
      else (acc.1, c :: acc.2))
    ([], [])
  p.1 ++ [String.mk p.2.reverse]

/-- Python value returned by `json.loads`: JSON values, with numbers kept as
their source lexeme (the distinction between int and float plays no role in
the verified properties). -/
inductive Json : Type where
| null : Json
| bool (b : Bool) : Json
| num (lex : String) : Json
| str (s : String) : Json
| arr (elems : List Json) : Json
| obj (fields : List (String × Json)) : Json

/-- SlackUserSchema from backend/app/models/slack.py. -/
structure SlackUserSchema where
  id : String
  name : String
  real_name : Option String
  email : Option String
  title : Option String
  is_admin : Bool
deriving DecidableEq

/-- SlackMessageSchema reaction entries (name/count/users). -/
structure SlackReactionSchema where
  name : String
  count : Nat
  users : List String
deriving DecidableEq

/-- SlackMessageSchema attachment entries (type/title/text/file). -/
structure SlackAttachmentSchema where
  type : String
  title : Option String
  text : Option String
  file_id : Option String
deriving DecidableEq

/-- SlackMessageSchema from backend/app/models/slack.py: recursive because
`replies` is a list of messages of the same shape. -/
inductive SlackMessageSchema : Type where
| mk (id : String) (text : String) (user : String) (timestamp : Int)
    (reactions : List SlackReactionSchema) (replies : List SlackMessageSchema)
    (thread_ts : Option String) (attachments : List SlackAttachmentSchema) :
    SlackMessageSchema

def SlackMessageSchema.id : SlackMessageSchema → String
  | .mk i _ _ _ _ _ _ _ => i

def SlackMessageSchema.text : SlackMessageSchema → String
  | .mk _ t _ _ _ _ _ _ => t

def SlackMessageSchema.user : SlackMessageSchema → String
  | .mk _ _ u _ _ _ _ _ => u

def SlackMessageSchema.timestamp : SlackMessageSchema → Int
  | .mk _ _ _ ts _ _ _ _ => ts

def SlackMessageSchema.reactions : SlackMessageSchema → List SlackReactionSchema
  | .mk _ _ _ _ r _ _ _ => r

def SlackMessageSchema.replies : SlackMessageSchema → List SlackMessageSchema
  | .mk _ _ _ _ _ r _ _ => r

def SlackMessageSchema.thread_ts : SlackMessageSchema → Option String
  | .mk _ _ _ _ _ _ t _ => t

def SlackMessageSchema.attachments : SlackMessageSchema → List SlackAttachmentSchema
  | .mk _ _ _ _ _ _ _ a => a

/-- SlackChannelSchema from backend/app/models/slack.py. -/
structure SlackChannelSchema where
  id : String
  name : String
  is_private : Bool
  created : Int
  creator : Option String
  messages : List SlackMessageSchema

/-- An element of a canvas `rich_text` block: a dict that may carry a
`text` key. -/
structure RichTextElement where
  text : Option String

/-- A canvas content block: a dict that may carry a `text` key or a
`rich_text` key (`_prepare_documents` checks them in that order). -/
structure CanvasBlock where
  text : Option String
  rich_text : Option (List RichTextElement)

/-- SlackCanvasSchema from backend/app/models/slack.py. -/
structure SlackCanvasSchema where
  id : String
  title : String
  created : Int
  creator : String
  content : List CanvasBlock
  channel_id : Option String

/-- SlackWorkspaceSchema from backend/app/models/slack.py. -/
structure SlackWorkspaceSchema where
  id : String
  name : String
  domain : String
  users : List SlackUserSchema
  channels : List SlackChannelSchema
  canvases : List SlackCanvasSchema
  extraction_time : Int

/-- Metadata dict attached to a langchain Document by `_prepare_documents`.
The three source kinds populate different key subsets, so keys that are
absent for some kind are `Option`-valued. -/
structure DocMetadata where
  channel_id : Option String
  channel_name : Option String
  message_id : Option String
  user_id : String
  user_name : String
  timestamp : Int
  has_replies : Option Bool
  has_reactions : Option Bool
  source_type : String
  parent_message_id : Option String
  canvas_id : Option String
  canvas_title : Option String
deriving DecidableEq

/-- A langchain Document: page content plus metadata. -/
structure Document where
  page_content : String
  metadata : DocMetadata
deriving DecidableEq

/-- SlackAIProcessingResultSchema from backend/app/models/slack.py; the two
summary dicts become association lists in insertion order, and the parsed
insight/topic lists hold the Python values `json.loads` produced (or the
fallback values). -/
structure SlackAIProcessingResultSchema where
  workspace_id : String
  summary : String
  channel_summaries : List (String × String)
  canvas_summaries : List (String × String)
  key_insights : List Json
  topics : List Json
  processing_time : Int

/-- Submission parameters stored on a task by `start_processing_task`. -/
structure TaskParams where
  channels : Option (List String)
  include_canvases : Bool
  max_age_days : Option Int
  custom_instruction : Option String
deriving DecidableEq

/-- One entry of `self.processing_tasks`: the task record dict created by
`start_processing_task` and mutated by `_process_workspace_data`. -/
structure TaskRecord where
  workspace_id : String
  status : String
  started_at : Int
  completed_at : Option Int
  parameters : TaskParams
  results : Option SlackAIProcessingResultSchema
  error : Option String

/-- The task registry `self.processing_tasks`, embedded as an association
list with Python-dict semantics (unique keys, insertion order). -/
abbrev Registry := List (String × TaskRecord)

/-- Dict lookup `self.processing_tasks[task_id]` / `task_id in self.processing_tasks`. -/
def regFind : Registry → String → Option TaskRecord
  | [], _ => none
  | (k', t) :: rest, k => if k' == k then some t else regFind rest k

/-- Dict assignment `self.processing_tasks[task_id] = task`: replace the
entry if the key is present, else append it. -/
def regInsert : Registry → String → TaskRecord → Registry
  | [], k, t => [(k, t)]
  | (k', t') :: rest, k, t =>
    if k' == k then (k, t) :: rest else (k', t') :: regInsert rest k t

/-- In-place mutation of one task's fields
(`self.processing_tasks[task_id][...] = ...`); a no-op on an absent key
(the worker is only ever invoked with a key inserted by `start_processing_task`). -/
def regUpdate : Registry → String → (TaskRecord → TaskRecord) → Registry
  | [], _, _ => []
  | (k', t) :: rest, k, f =>
    if k' == k then (k', f t) :: regUpdate rest k f
    else (k', t) :: regUpdate rest k f

/-- start_processing_task (ai_processor.py lines 48-98): create the task
record in state "queued" and return the task id.  The fresh uuid4 value and
`datetime.now()` are passed in as `task_id` and `now`; the submission to the
thread pool is the separately modelled worker run. -/
def start_processing_task (reg : Registry) (task_id workspace_id : String)
    (channels : Option (List String)) (include_canvases : Bool)
    (max_age_days : Option Int) (custom_instruction : Option String)
    (now : Int) : String × Registry :=
  let task : TaskRecord :=
    { workspace_id := workspace_id
      status := "queued"
      started_at := now
      completed_at := none
      parameters :=
        { channels := channels
          include_canvases := include_canvases
          max_age_days := max_age_days
          custom_instruction := custom_instruction }
      results := none
      error := none }
  (task_id, regInsert reg task_id task)

/-- View returned by get_task_status. -/
structure TaskStatusView where
  task_id : String
  status : String
  workspace_id : String
  started_at : Int
  completed_at : Option Int
  error : Option String
deriving DecidableEq

/-- get_task_status (ai_processor.py lines 100-114).  ProcessingError is
embedded as the error message string; the registry is threaded through to
make the absence of mutation a provable statement. -/
def get_task_status (reg : Registry) (task_id : String) :
    Except String TaskStatusView × Registry :=
  match regFind reg task_id with
  | none => (.error ("Task " ++ task_id ++ " not found"), reg)
  | some t =>
    (.ok { task_id := task_id
           status := t.status
           workspace_id := t.workspace_id
           started_at := t.started_at
           completed_at := t.completed_at
           error := t.error }, reg)

/-- get_task_results (ai_processor.py lines 116-126): not-found and
not-completed raise ProcessingError with distinct messages; on a completed
task the stored `results` field (Python `None` until set) is returned. -/
def get_task_results (reg : Registry) (task_id : String) :
    Except String (Option SlackAIProcessingResultSchema) × Registry :=
  match regFind reg task_id with
  | none => (.error ("Task " ++ task_id ++ " not found"), reg)
  | some t =>
    if t.status ≠ "completed" then
      (.error ("Task " ++ task_id ++ " not completed yet"), reg)
    else
      (.ok t.results, reg)

/-- user_map from `_prepare_documents` line 224: the dict comprehension
maps each user id to `user.real_name or user.name` (Python `or` falls back
on `None` and on the empty string; later dict entries overwrite earlier
ones), and lookups use `.get(uid, "Unknown")`. -/
def userMapGet (users : List SlackUserSchema) (uid : String) : String :=
  match users.reverse.find? (fun u => u.id == uid) with
  | some u =>
    match u.real_name with
    | some r => if r = "" then u.name else r
    | none => u.name
  | none => "Unknown"

/-- Metadata built for a top-level channel message (lines 234-244). -/
def msgMetadata (users : List SlackUserSchema) (channel : SlackChannelSchema)
    (message : SlackMessageSchema) : DocMetadata :=
  { channel_id := some channel.id
    channel_name := some channel.name
    message_id := some message.id
    user_id := message.user
    user_name := userMapGet users message.user
    timestamp := message.timestamp
    has_replies := some (!message.replies.isEmpty)
    has_reactions := some (!message.reactions.isEmpty)
    source_type := "message"
    parent_message_id := none
    canvas_id := none
    canvas_title := none }

/-- Document built for one reply (lines 252-267): the parent message's
metadata dict is copied and then the reply-specific keys are overwritten. -/
def replyDocOf (users : List SlackUserSchema) (channel : SlackChannelSchema)
    (message reply : SlackMessageSchema) : Document :=
  { page_content := reply.text
    metadata :=
      { msgMetadata users channel message with
        message_id := some reply.id
        user_id := reply.user
        user_name := userMapGet users reply.user
        timestamp := reply.timestamp
        parent_message_id := some message.id
        source_type := "reply" } }

/-- Documents contributed by one top-level message (lines 228-267): skip the
message entirely when its text strips to empty, else one Document for the
message followed by one Document per reply (replies are not text-filtered). -/
def docsOfMessage (users : List SlackUserSchema) (channel : SlackChannelSchema)
    (message : SlackMessageSchema) : List Document :=
  if pyStrip message.text = "" then []
  else
    Document.mk message.text (msgMetadata users channel message) ::
      message.replies.map (replyDocOf users channel message)

/-- Text extracted from canvas content blocks (the loop at lines 274-280 and
341-347): each block contributes its `text` value, else the `text` values of
its `rich_text` elements, each followed by a newline. -/
def canvasBlocksText (blocks : List CanvasBlock) : String :=
  blocks.foldl
    (fun acc block =>
      match block.text with
      | some t => acc ++ t ++ "\n"
      | none =>
        match block.rich_text with
        | some elems =>
          elems.foldl
            (fun a e =>
              match e.text with
              | some t => a ++ t ++ "\n"
              | none => a)
            acc
        | none => acc)
    ""

/-- Document built for one canvas (lines 270-295): the page content always
starts with the `"Canvas: {title}"` header, so it is never empty. -/
def docsOfCanvas (users : List SlackUserSchema) (canvas : SlackCanvasSchema) :
    Document :=
  { page_content := "Canvas: " ++ canvas.title ++ "\n\n" ++ canvasBlocksText canvas.content
    metadata :=
      { channel_id := canvas.channel_id
        channel_name := none
        message_id := none
        user_id := canvas.creator
        user_name := userMapGet users canvas.creator
        timestamp := canvas.created
        has_replies := none
        has_reactions := none
        source_type := "canvas"
        parent_message_id := none
        canvas_id := some canvas.id
        canvas_title := some canvas.title } }

/-- prepare_documents (`_prepare_documents`, lines 219-298): message and
reply Documents channel by channel, then one Document per canvas.  The
workspace's canvases are traversed unconditionally - the function never
receives the include_canvases flag.  The trailing external
`text_splitter.split_documents` call is an external langchain collaborator
and is not modelled. -/
def prepare_documents (ws : SlackWorkspaceSchema) : List Document :=
  (ws.channels.flatMap fun c => c.messages.flatMap (docsOfMessage ws.users c)) ++
    ws.canvases.map (docsOfCanvas ws.users)

/-- Channel filtering in `_process_workspace_data` (lines 145-147):
`if channels:` is false for Python `None` and for the empty list, so both
keep every channel; otherwise channels whose id is in the list are kept. -/
def filterChannels (channels : Option (List String))
    (chans : List SlackChannelSchema) : List SlackChannelSchema :=
  match channels with
  | none => chans
  | some l => if l = [] then chans else chans.filter (fun c => l.contains c.id)

/-- Message-age cutoff: `datetime.now() - timedelta(days=max_age_days)`
with timestamps in seconds. -/
def ageCutoff (now : Int) (d : Int) : Int := now - d * 86400

/-- Age filtering of one channel's top-level messages (lines 152-156):
`m.timestamp >= cutoff_date` keeps the message; replies are untouched. -/
def filterChannelByAge (cutoff : Int) (c : SlackChannelSchema) :
    SlackChannelSchema :=
  { c with messages := c.messages.filter (fun m => cutoff ≤ m.timestamp) }

/-- Age filtering in `_process_workspace_data` (lines 149-156):
`if max_age_days:` is false for Python `None` and for `0`, so both skip the
filter entirely. -/
def filterByAge (now : Int) (max_age_days : Option Int)
    (chans : List SlackChannelSchema) : List SlackChannelSchema :=
  match max_age_days with
  | none => chans
  | some d => if d = 0 then chans else chans.map (filterChannelByAge (ageCutoff now d))

/-- JSON whitespace accepted between tokens by `json.loads`. -/
def jsonWs (c : Char) : Bool := c = ' ' || c = '\t' || c = '\n' || c = '\r'

def skipWs (cs : List Char) : List Char := cs.dropWhile jsonWs

def isJsonDigit (c : Char) : Bool := '0' ≤ c && c ≤ '9'

/-- Numeric value of one hexadecimal digit of a unicode escape. -/
def hexVal (c : Char) : Option Nat :=
  let n := c.toNat
  if 48 ≤ n && n ≤ 57 then some (n - 48)
  else if 97 ≤ n && n ≤ 102 then some (n - 87)
  else if 65 ≤ n && n ≤ 70 then some (n - 55)
  else none

def parseHex4 : List Char → Option (Nat × List Char)
  | a :: b :: c :: d :: rest =>
    match hexVal a, hexVal b, hexVal c, hexVal d with
    | some x, some y, some z, some w => some (((x * 16 + y) * 16 + z) * 16 + w, rest)
    | _, _, _, _ => none
  | _ => none

/-- Body of a JSON string, called after the opening quote; returns the
content and the remainder after the closing quote.  A unicode escape
becomes its code point directly (surrogate-pair recombination, which
Python performs, is not modelled - no verified property exercises it). -/
def parseStringBody : Nat → List Char → List Char → Option (String × List Char)
  | 0, _, _ => none
  | _ + 1, [], _ => none
  | fuel + 1, c :: rest, acc =>
    if c = '"' then some (String.mk acc.reverse, rest)
    else if c = '\\' then
      match rest with
      | [] => none
      | e :: rest2 =>
        if e = '"' then parseStringBody fuel rest2 ('"' :: acc)
        else if e = '\\' then parseStringBody fuel rest2 ('\\' :: acc)
        else if e = '/' then parseStringBody fuel rest2 ('/' :: acc)
        else if e = 'b' then parseStringBody fuel rest2 ('\x08' :: acc)
        else if e = 'f' then parseStringBody fuel rest2 ('\x0c' :: acc)
        else if e = 'n' then parseStringBody fuel rest2 ('\n' :: acc)
        else if e = 'r' then parseStringBody fuel rest2 ('\r' :: acc)
        else if e = 't' then parseStringBody fuel rest2 ('\t' :: acc)
        else if e = 'u' then
          match parseHex4 rest2 with
          | some (n, rest3) => parseStringBody fuel rest3 (Char.ofNat n :: acc)
          | none => none
        else none
    else if c.toNat < 32 then none
    else parseStringBody fuel rest (c :: acc)

/-- Integer digit run of a JSON number; rejects a leading zero followed by
more digits, as the JSON grammar does. -/
def parseIntDigits (cs : List Char) : Option (List Char × List Char) :=
  let ds := cs.takeWhile isJsonDigit
  if ds.isEmpty then none
  else if 1 < ds.length && ds.head? = some '0' then none
  else some (ds, cs.drop ds.length)

def parseFracPart : List Char → Option (List Char × List Char)
  | '.' :: r =>
    let ds := r.takeWhile isJsonDigit
    if ds.isEmpty then none else some ('.' :: ds, r.drop ds.length)
  | cs => some ([], cs)

def parseExpPart : List Char → Option (List Char × List Char)
  | c :: r =>
    if c = 'e' || c = 'E' then
      let p : List Char × List Char :=
        match r with
        | s :: r3 => if s = '+' || s = '-' then ([s], r3) else ([], r)
        | [] => ([], r)
      let ds := p.2.takeWhile isJsonDigit
      if ds.isEmpty then none
      else some (c :: (p.1 ++ ds), p.2.drop ds.length)
    else some ([], c :: r)
  | [] => some ([], [])

/-- Lexeme of a JSON number (sign, integer part, optional fraction and
exponent). -/
def parseNumberLex (cs : List Char) : Option (String × List Char) :=
  let p : List Char × List Char :=
    match cs with
    | '-' :: r => (['-'], r)
    | _ => ([], cs)
  match parseIntDigits p.2 with
  | none => none
  | some (ds, cs2) =>
    match parseFracPart cs2 with
    | none => none
    | some (fr, cs3) =>
      match parseExpPart cs3 with
      | none => none
      | some (ex, cs4) => some (String.mk (p.1 ++ ds ++ fr ++ ex), cs4)

/-- Consume an expected literal suffix character by character. -/
def dropLit : List Char → List Char → Option (List Char)
  | [], cs => some cs
  | l :: ls, c :: cs => if c = l then dropLit ls cs else none
  | _ :: _, [] => none

def lbraceChar : Char := Char.ofNat 123

def rbraceChar : Char := Char.ofNat 125

mutual

/-- One JSON value (with Python's NaN/Infinity extensions, which
`json.loads` accepts by default), returning the remainder of the input. -/
def parseValue : Nat → List Char → Option (Json × List Char)
  | 0, _ => none
  | fuel + 1, cs0 =>
    match skipWs cs0 with
    | [] => none
    | c :: rest =>
      if c = '"' then
        match parseStringBody (rest.length + 1) rest [] with
        | some (s, rest2) => some (Json.str s, rest2)
        | none => none
      else if c = '[' then
        match skipWs rest with
        | ']' :: rest2 => some (Json.arr [], rest2)
        | cs1 =>
          match parseValue fuel cs1 with
          | some (v, rest2) =>
            match parseArrayRest fuel rest2 with
            | some (vs, rest3) => some (Json.arr (v :: vs), rest3)
            | none => none
          | none => none
      else if c = lbraceChar then
        match skipWs rest with
        | d :: rest2 =>
          if d = rbraceChar then some (Json.obj [], rest2)
          else
            match parseMember fuel (d :: rest2) with
            | some (kv, rest3) =>
              match parseObjectRest fuel rest3 with
              | some (kvs, rest4) => some (Json.obj (kv :: kvs), rest4)
              | none => none
            | none => none
        | [] => none
      else if c = 't' then
        match dropLit ['r', 'u', 'e'] rest with
        | some rest2 => some (Json.bool true, rest2)
        | none => none
      else if c = 'f' then
        match dropLit ['a', 'l', 's', 'e'] rest with
        | some rest2 => some (Json.bool false, rest2)
        | none => none
      else if c = 'n' then
        match dropLit ['u', 'l', 'l'] rest with
        | some rest2 => some (Json.null, rest2)
        | none => none
      else if c = 'N' then
        match dropLit ['a', 'N'] rest with
        | some rest2 => some (Json.num "NaN", rest2)
        | none => none
      else if c = 'I' then
        match dropLit ['n', 'f', 'i', 'n', 'i', 't', 'y'] rest with
        | some rest2 => some (Json.num "Infinity", rest2)
        | none => none
      else if c = '-' then
        match rest with
        | 'I' :: rest2 =>
          match dropLit ['n', 'f', 'i', 'n', 'i', 't', 'y'] rest2 with
          | some rest3 => some (Json.num "-Infinity", rest3)
          | none => none
        | _ =>
          match parseNumberLex (c :: rest) with
          | some (lex, rest2) => some (Json.num lex, rest2)
          | none => none
      else if isJsonDigit c then
        match parseNumberLex (c :: rest) with
        | some (lex, rest2) => some (Json.num lex, rest2)
        | none => none
      else none

/-- One `"key": value` member of a JSON object. -/
def parseMember : Nat → List Char → Option ((String × Json) × List Char)
  | 0, _ => none
  | fuel + 1, cs =>
    match skipWs cs with
    | '"' :: rest =>
      match parseStringBody (rest.length + 1) rest [] with
      | some (k, rest2) =>
        match skipWs rest2 with
        | ':' :: rest3 =>
          match parseValue fuel rest3 with
          | some (v, rest4) => some ((k, v), rest4)
          | none => none
        | _ => none
      | none => none
    | _ => none

/-- Remaining elements of a JSON array after the first value. -/
def parseArrayRest : Nat → List Char → Option (List Json × List Char)
  | 0, _ => none
  | fuel + 1, cs =>
    match skipWs cs with
    | ']' :: rest => some ([], rest)
    | ',' :: rest =>
      match parseValue fuel rest with
      | some (v, rest2) =>
        match parseArrayRest fuel rest2 with
        | some (vs, rest3) => some (v :: vs, rest3)
        | none => none
      | none => none
    | _ => none

/-- Remaining members of a JSON object after the first member. -/
def parseObjectRest : Nat → List Char → Option (List (String × Json) × List Char)
  | 0, _ => none
  | fuel + 1, cs =>
    match skipWs cs with
    | c :: rest =>
      if c = rbraceChar then some ([], rest)
      else if c = ',' then
        match parseMember fuel rest with
        | some (kv, rest2) =>
          match parseObjectRest fuel rest2 with
          | some (kvs, rest3) => some (kv :: kvs, rest3)
          | none => none
        | none => none
      else none
    | [] => none

end

/-- json.loads: parse one complete JSON document; trailing non-whitespace
input is an error.  The fuel bound exceeds any possible nesting depth of
the input. -/
def json_loads (s : String) : Option Json :=
  match parseValue (4 * s.length + 16) s.toList with
  | some (v, rest) => if (skipWs rest).isEmpty then some v else none
  | none => none

/-- Parsing step of `_extract_key_insights` (ai_processor.py lines 463-475):
try `json.loads`; a parsed list is returned as-is; a parsed non-list, or a
parse failure, falls back to `insights_text.strip().split("\n")` (fallback
lines embed as `Json.str`, matching Python where both branches then hold
plain strings). -/
def extract_key_insights_parse (insights_text : String) : List Json :=
  match json_loads insights_text with
  | some (Json.arr l) => l
  | some _ => (pySplitNL (pyStrip insights_text)).map Json.str
  | none => (pySplitNL (pyStrip insights_text)).map Json.str

/-- Fallback sentinel topic of `_identify_topics` (lines 506-511). -/
def generalTopic : Json :=
  Json.obj [("name", Json.str "General"),
            ("description", Json.str "General discussion"),
            ("keywords", Json.arr [Json.str "general"])]

/-- Parsing step of `_identify_topics` (lines 500-513). -/
def identify_topics_parse (topics_text : String) : List Json :=
  match json_loads topics_text with
  | some (Json.arr l) => l
  | some _ => [generalTopic]
  | none => [generalTopic]

/-- Environment of external collaborators: every langchain / OpenAI / Slack
call the worker makes, as `Except`-valued functions (an exception raised by
a collaborator is the `.error` case, caught by the worker's `except`
clause).  Prompt assembly for each LLM chain is folded into the
corresponding function, since no verified property depends on prompt text;
`now` is `datetime.now()` at filtering time and `doneAt` at completion. -/
structure Env where
  now : Int
  doneAt : Int
  fetch_all_workspace_data : String → Except String SlackWorkspaceSchema
  faiss_from_documents : List Document → Except String Unit
  channel_chain : SlackChannelSchema → Except String String
  canvas_chain : SlackCanvasSchema → Except String String
  workspace_chain : Except String String
  insights_chain : Except String String
  topics_chain : Except String String

/-- generate_channel_summary (`_generate_channel_summary`, lines 304-335). -/
def generate_channel_summary (env : Env) (channel : SlackChannelSchema) :
    Except String String :=
  if channel.messages.isEmpty then .ok "Empty channel or no recent messages."
  else env.channel_chain channel

/-- generate_canvas_summary (`_generate_canvas_summary`, lines 337-371). -/
def generate_canvas_summary (env : Env) (canvas : SlackCanvasSchema) :
    Except String String :=
  if pyStrip (canvasBlocksText canvas.content) = "" then
    .ok "Empty canvas or content could not be processed."
  else env.canvas_chain canvas

/-- Channel-summary loop of `_process_workspace_data` (lines 167-171):
channels with no retained messages are skipped, producing no entry. -/
def buildChannelSummaries (env : Env) :
    List SlackChannelSchema → Except String (List (String × String))
  | [] => .ok []
  | c :: rest =>
    if c.messages.isEmpty then buildChannelSummaries env rest
    else do
      let s ← generate_channel_summary env c
      let others ← buildChannelSummaries env rest
      pure ((c.id, s) :: others)

/-- Canvas-summary loop of `_process_workspace_data` (lines 174-177). -/
def buildCanvasSummaries (env : Env) :
    List SlackCanvasSchema → Except String (List (String × String))
  | [] => .ok []
  | cv :: rest => do
    let s ← generate_canvas_summary env cv
    let others ← buildCanvasSummaries env rest
    pure ((cv.id, s) :: others)

/-- Body of the worker's `try` block (`_process_workspace_data`, lines
142-206): fetch, filter channels, filter by age, build the corpus, fail on
an empty corpus, index, then run the summarization steps in their fixed
order and assemble the result. -/
def pipelineBody (env : Env) (workspace_id : String)
    (channels : Option (List String)) (include_canvases : Bool)
    (max_age_days : Option Int) (custom_instruction : Option String) :
    Except String SlackAIProcessingResultSchema := do
  let ws0 ← env.fetch_all_workspace_data workspace_id
  let ws2 : SlackWorkspaceSchema :=
    { ws0 with channels := filterByAge env.now max_age_days (filterChannels channels ws0.channels) }
  let documents := prepare_documents ws2
  if documents.isEmpty then
    throw "No data to process after filtering"
  let _ ← env.faiss_from_documents documents
  let channel_summaries ← buildChannelSummaries env ws2.channels
  let canvas_summaries ←
    if include_canvases && !ws2.canvases.isEmpty then
      buildCanvasSummaries env ws2.canvases
    else
      pure []
  let overall_summary ← env.workspace_chain
  let insights_text ← env.insights_chain
  let key_insights := extract_key_insights_parse insights_text
  let topics_text ← env.topics_chain
  let topics := identify_topics_parse topics_text
  pure { workspace_id := workspace_id
         summary := overall_summary
         channel_summaries := channel_summaries
         canvas_summaries := canvas_summaries
         key_insights := key_insights
         topics := topics
         processing_time := env.doneAt }

/-- process_workspace_data (`_process_workspace_data`, lines 128-217): set
status "processing", run the pipeline, then write the terminal state; any
error raised inside the `try` block is caught and recorded on the task,
never re-raised.  `custom_instruction` reaches only prompt text, which
lives in the environment. -/
def process_workspace_data (env : Env) (reg : Registry)
    (task_id workspace_id : String) (channels : Option (List String))
    (include_canvases : Bool) (max_age_days : Option Int)
    (custom_instruction : Option String) : Registry :=
  let reg1 := regUpdate reg task_id (fun t => { t with status := "processing" })
  match pipelineBody env workspace_id channels include_canvases max_age_days custom_instruction with
  | .ok result =>
    regUpdate reg1 task_id (fun t =>
      { t with status := "completed", completed_at := some env.doneAt,
               results := some result })
  | .error e =>
    regUpdate reg1 task_id (fun t =>
      { t with status := "failed", error := some e,
               completed_at := some env.doneAt })

/-- Successive registry states produced by one worker run, at status-write
granularity: the state after the "processing" write, then the state after
the terminal write. -/
def workerStates (env : Env) (reg : Registry) (task_id workspace_id : String)
    (channels : Option (List String)) (include_canvases : Bool)
    (max_age_days : Option Int) (custom_instruction : Option String) :
    List Registry :=
  [regUpdate reg task_id (fun t => { t with status := "processing" }),
   process_workspace_data env reg task_id workspace_id channels
     include_canvases max_age_days custom_instruction]

/-- Rank of a status along the chain queued -> processing -> terminal. -/
def statusRank : String → Nat
  | "queued" => 0
  | "processing" => 1
  | "completed" => 2
  | "failed" => 2
  | _ => 3

/-- A terminal task status. -/
def terminalStatus (s : String) : Prop := s = "completed" ∨ s = "failed"

def demoResult : SlackAIProcessingResultSchema :=
  { workspace_id := "W1"
    summary := "overall"
    channel_summaries := [("C1", "chan summary")]
    canvas_summaries := []
    key_insights := [Json.str "i1"]
    topics := [generalTopic]
    processing_time := 1500 }

def demoParams : TaskParams :=
  { channels := none, include_canvases := true, max_age_days := none,
    custom_instruction := none }

def demoCompletedTask : TaskRecord :=
  { workspace_id := "W1", status := "completed", started_at := 1000,
    completed_at := some 1500, parameters := demoParams,
    results := some demoResult, error := none }

def demoProcessingTask : TaskRecord :=
  { workspace_id := "W1", status := "processing", started_at := 1000,
    completed_at := none, parameters := demoParams,
    results := none, error := none }

def demoReg : Registry := [("a", demoCompletedTask), ("b", demoProcessingTask)]

def chanA : SlackChannelSchema :=
  { id := "A", name := "alpha", is_private := false, created := 0,
    creator := none, messages := [] }

def chanB : SlackChannelSchema :=
  { id := "B", name := "beta", is_private := false, created := 0,
    creator := none, messages := [] }

/-- Statuses the registry holds for a task, observed before the worker runs
and after each of the worker's status writes. -/
def statusTrace (env : Env) (reg : Registry) (task_id workspace_id : String)
    (channels : Option (List String)) (include_canvases : Bool)
    (max_age_days : Option Int) (custom_instruction : Option String) :
    List String :=
  (reg :: workerStates env reg task_id workspace_id channels include_canvases
      max_age_days custom_instruction).filterMap
    (fun r => (regFind r task_id).map TaskRecord.status)

def demoUser : SlackUserSchema :=
  { id := "U1", name := "ada", real_name := some "Ada L", email := none,
    title := none, is_admin := true }

def demoMsg : SlackMessageSchema :=
  .mk "m1" "hello world" "U1" 900000 [] [] none []

def demoChannelFull : SlackChannelSchema :=
  { id := "C1", name := "general", is_private := false, created := 0,
    creator := some "U1", messages := [demoMsg] }

def demoWs : SlackWorkspaceSchema :=
  { id := "W1", name := "Acme", domain := "acme", users := [demoUser],
    channels := [demoChannelFull], canvases := [], extraction_time := 0 }

def demoEnv : Env :=
  { now := 1000000, doneAt := 1000500,
    fetch_all_workspace_data := fun _ => .ok demoWs,
    faiss_from_documents := fun _ => .ok (),
    channel_chain := fun _ => .ok "chan summary",
    canvas_chain := fun _ => .ok "canvas summary",
    workspace_chain := .ok "overall",
    insights_chain := .ok "[\"i1\"]",
    topics_chain := .ok "no structure here" }

def demoQueuedTask : TaskRecord :=
  { workspace_id := "W1", status := "queued", started_at := 1000,
    completed_at := none, parameters := demoParams, results := none,
    error := none }

def demoQueuedReg : Registry := [("t1", demoQueuedTask)]

def emptyWs : SlackWorkspaceSchema :=
  { id := "W2", name := "Empty", domain := "e", users := [], channels := [],
    canvases := [], extraction_time := 0 }

def emptyEnv : Env :=
  { demoEnv with fetch_all_workspace_data := fun _ => .ok emptyWs }

def canvasC6 : SlackCanvasSchema :=
  { id := "CV1", title := "Roadmap", created := 50, creator := "U1",
    content := [{ text := some "world", rich_text := none }],
    channel_id := some "C1" }

def wsC6 : SlackWorkspaceSchema := { demoWs with canvases := [canvasC6] }

def envC6 : Env :=
  { demoEnv with fetch_all_workspace_data := fun _ => .ok wsC6 }

def resC6 : SlackAIProcessingResultSchema :=
  { workspace_id := "W1", summary := "overall",
    channel_summaries := [("C1", "chan summary")], canvas_summaries := [],
    key_insights := [Json.str "i1"], topics := [generalTopic],
    processing_time := 1000500 }

def replyOld : SlackMessageSchema := .mk "r1" "old reply" "U1" 0 [] [] none []

def msgC7 : SlackMessageSchema :=
  .mk "m2" "recent parent" "U1" 800000 [] [replyOld] none []

def chanC7 : SlackChannelSchema :=
  { id := "C7", name := "seven", is_private := false, created := 0,
    creator := none, messages := [msgC7] }

def wsC7 : SlackWorkspaceSchema :=
  { id := "W7", name := "Seven", domain := "s", users := [demoUser],
    channels := [chanC7], canvases := [], extraction_time := 0 }

def corpusC7 : List Document :=
  prepare_documents
    { wsC7 with channels := filterByAge 864000 (some 7) wsC7.channels }

def replyEmpty : SlackMessageSchema := .mk "r8" "" "U1" 900100 [] [] none []

def msgC8 : SlackMessageSchema :=
  .mk "m8" "hi" "U1" 900000 [] [replyEmpty] none []

def chanC8 : SlackChannelSchema :=
  { id := "C8", name := "eight", is_private := false, created := 0,
    creator := none, messages := [msgC8] }

def wsC8 : SlackWorkspaceSchema :=
  { id := "W8", name := "Eight", domain := "e8", users := [demoUser],
    channels := [chanC8], canvases := [], extraction_time := 0 }

def emptyMsg : SlackMessageSchema := .mk "m9" "  " "U1" 0 [] [] none []

theorem regFind_insert_self (reg : Registry) (k : String) (t : TaskRecord) :
    regFind (regInsert reg k t) k = some t := by
  induction reg with
  | nil => simp [regInsert, regFind]
  | cons p rest ih =>
    obtain ⟨k', t'⟩ := p
    by_cases h : k' == k
    · simp [regInsert, regFind, h]
    · simp [regInsert, regFind, h, ih]

theorem regFind_insert_ne (reg : Registry) (k k' : String) (t : TaskRecord)
    (h : k' ≠ k) : regFind (regInsert reg k t) k' = regFind reg k' := by
  induction reg with
  | nil =>
    have : ¬ k = k' := fun hh => h hh.symm
    simp [regInsert, regFind, this]
  | cons p rest ih =>
    obtain ⟨k0, t0⟩ := p
    by_cases h0 : k0 == k
    · have hk0 : k0 = k := by exact beq_iff_eq .. |>.mp h0
      have : ¬ (k = k') := fun hh => h (hh ▸ rfl)
      simp [regInsert, regFind, h0, hk0, this]
    · by_cases h1 : k0 == k'
      · simp [regInsert, regFind, h0, h1]
      · simp [regInsert, regFind, h0, h1, ih]

theorem regFind_update_self (reg : Registry) (k : String) (f : TaskRecord → TaskRecord) :
    regFind (regUpdate reg k f) k = (regFind reg k).map f := by
  induction reg with
  | nil => simp [regUpdate, regFind]
  | cons p rest ih =>
    obtain ⟨k', t'⟩ := p
    by_cases h : k' == k
    · simp [regUpdate, regFind, h]
    · simp [regUpdate, regFind, h, ih]

theorem regFind_update_ne (reg : Registry) (k k' : String) (f : TaskRecord → TaskRecord)
    (h : k' ≠ k) : regFind (regUpdate reg k f) k' = regFind reg k' := by
  induction reg with
  | nil => simp [regUpdate, regFind]
  | cons p rest ih =>
    obtain ⟨k0, t0⟩ := p
    by_cases h0 : k0 == k
    · have hk0 : k0 = k := beq_iff_eq .. |>.mp h0
      have : ¬ (k0 == k') := by
        simp [hk0]
        exact fun hh => h (hh ▸ rfl)
      simp [regUpdate, regFind, h0, this, ih]
    · by_cases h1 : k0 == k'
      · simp [regUpdate, regFind, h0, h1]
      · simp [regUpdate, regFind, h0, h1, ih]

/-- C2: start_processing_task always succeeds locally: it returns the task
id and has already inserted a registry record whose status is "queued"
(with empty results and error) when it returns, so get_task_status on the
returned id, called before any worker step, reports "queued". -/
theorem C2_submit_creates_queued_record (reg : Registry)
    (task_id workspace_id : String) (channels : Option (List String))
    (include_canvases : Bool) (max_age_days : Option Int)
    (custom_instruction : Option String) (now : Int) :
    (start_processing_task reg task_id workspace_id channels include_canvases
        max_age_days custom_instruction now).1 = task_id
    ∧ regFind (start_processing_task reg task_id workspace_id channels
        include_canvases max_age_days custom_instruction now).2 task_id =
      some { workspace_id := workspace_id
             status := "queued"
             started_at := now
             completed_at := none
             parameters :=
               { channels := channels
                 include_canvases := include_canvases
                 max_age_days := max_age_days
                 custom_instruction := custom_instruction }
             results := none
             error := none }
    ∧ (get_task_status (start_processing_task reg task_id workspace_id channels
        include_canvases max_age_days custom_instruction now).2 task_id).1 =
      .ok { task_id := task_id
            status := "queued"
            workspace_id := workspace_id
            started_at := now
            completed_at := none
            error := none } := by
  refine ⟨rfl, ?_, ?_⟩
  · simp [start_processing_task, regFind_insert_self]
  · simp [start_processing_task, get_task_status, regFind_insert_self]

/-- C3: get_task_results raises the not-found ProcessingError on an unknown
id, raises the not-completed ProcessingError whenever the task's status is
not "completed", and returns the stored results field on a completed task;
and neither get_task_results nor get_task_status ever changes the registry. -/
theorem C3_result_retrieval_contract (reg : Registry) (task_id : String) :
    (regFind reg task_id = none →
      (get_task_results reg task_id).1 = .error ("Task " ++ task_id ++ " not found"))
    ∧ (∀ t : TaskRecord, regFind reg task_id = some t → t.status ≠ "completed" →
      (get_task_results reg task_id).1 = .error ("Task " ++ task_id ++ " not completed yet"))
    ∧ (∀ t : TaskRecord, regFind reg task_id = some t → t.status = "completed" →
      (get_task_results reg task_id).1 = .ok t.results)
    ∧ (get_task_results reg task_id).2 = reg
    ∧ (get_task_status reg task_id).2 = reg := by
  refine ⟨?_, ?_, ?_, ?_, ?_⟩
  · intro h
    simp [get_task_results, h]
  · intro t h hs
    simp [get_task_results, h, hs]
  · intro t h hs
    simp [get_task_results, h, hs]
  · cases h : regFind reg task_id with
    | none => simp [get_task_results, h]
    | some t =>
      by_cases hs : t.status = "completed" <;> simp [get_task_results, h, hs]
  · cases h : regFind reg task_id with
    | none => simp [get_task_status, h]
    | some t => simp [get_task_status, h]

theorem C3_result_retrieval_contract_witness :
    (get_task_results demoReg "c").1 = .error "Task c not found"
    ∧ (get_task_results demoReg "b").1 = .error "Task b not completed yet"
    ∧ (get_task_results demoReg "a").1 = .ok (some demoResult)
    ∧ (get_task_results demoReg "b").2 = demoReg := by
  refine ⟨?_, ?_, ?_, ?_⟩
  · exact (C3_result_retrieval_contract demoReg "c").1 rfl
  · exact (C3_result_retrieval_contract demoReg "b").2.1 demoProcessingTask rfl
      (by intro h; exact absurd h (by decide))
  · exact (C3_result_retrieval_contract demoReg "a").2.2.1 demoCompletedTask rfl rfl
  · exact (C3_result_retrieval_contract demoReg "b").2.2.2.1

/-- C4: with a non-empty channel filter exactly the channels whose id lies
in the filter are retained; with an empty filter list, and likewise with
the Python default `None`, every channel is retained. -/
theorem C4_channel_filter_semantics (l : List String)
    (cs : List SlackChannelSchema) :
    (l ≠ [] → ∀ c : SlackChannelSchema,
      c ∈ filterChannels (some l) cs ↔ c ∈ cs ∧ c.id ∈ l)
    ∧ filterChannels (some []) cs = cs
    ∧ filterChannels none cs = cs := by
  refine ⟨?_, by simp [filterChannels], rfl⟩
  intro hne c
  simp [filterChannels, hne, List.mem_filter]

theorem C4_channel_filter_semantics_witness :
    chanA ∈ filterChannels (some ["A"]) [chanA, chanB]
    ∧ chanB ∉ filterChannels (some ["A"]) [chanA, chanB] := by
  have h := (C4_channel_filter_semantics ["A"] [chanA, chanB]).1 (by simp)
  constructor
  · exact (h chanA).mpr ⟨by simp, by simp [chanA]⟩
  · intro hm
    have := ((h chanB).mp hm).2
    simp [chanB] at this

/-- C1: starting from a queued task, the worker's status writes follow the
chain queued -> processing -> (completed or failed): the observed statuses
are exactly one of the two three-step traces, every consecutive pair moves
strictly forward in rank, the final status is terminal, and afterwards no
operation of the service touches the task again: a submission under a
different (fresh uuid4) id and a worker run for a different id leave the
record untouched, and the status/result reads never mutate the registry. -/
theorem C1_task_status_state_machine (env : Env) (reg : Registry)
    (task_id workspace_id : String) (channels : Option (List String))
    (include_canvases : Bool) (max_age_days : Option Int)
    (custom_instruction : Option String) (t : TaskRecord)
    (hfind : regFind reg task_id = some t) (hq : t.status = "queued") :
    (statusTrace env reg task_id workspace_id channels include_canvases
        max_age_days custom_instruction = ["queued", "processing", "completed"]
      ∨ statusTrace env reg task_id workspace_id channels include_canvases
        max_age_days custom_instruction = ["queued", "processing", "failed"])
    ∧ List.Chain' (fun a b => statusRank a < statusRank b)
        (statusTrace env reg task_id workspace_id channels include_canvases
          max_age_days custom_instruction)
    ∧ (∀ s, (regFind (process_workspace_data env reg task_id workspace_id
          channels include_canvases max_age_days custom_instruction) task_id).map
          TaskRecord.status = some s → terminalStatus s)
    ∧ (∀ (task_id2 workspace_id2 : String) (channels2 : Option (List String))
        (include_canvases2 : Bool) (max_age_days2 : Option Int)
        (custom_instruction2 : Option String) (now2 : Int), task_id2 ≠ task_id →
        regFind (start_processing_task
            (process_workspace_data env reg task_id workspace_id channels
              include_canvases max_age_days custom_instruction)
            task_id2 workspace_id2 channels2 include_canvases2 max_age_days2
            custom_instruction2 now2).2 task_id
          = regFind (process_workspace_data env reg task_id workspace_id channels
              include_canvases max_age_days custom_instruction) task_id)
    ∧ (∀ (env2 : Env) (task_id2 workspace_id2 : String)
        (channels2 : Option (List String)) (include_canvases2 : Bool)
        (max_age_days2 : Option Int) (custom_instruction2 : Option String),
        task_id2 ≠ task_id →
        regFind (process_workspace_data env2
            (process_workspace_data env reg task_id workspace_id channels
              include_canvases max_age_days custom_instruction)
            task_id2 workspace_id2 channels2 include_canvases2 max_age_days2
            custom_instruction2) task_id
          = regFind (process_workspace_data env reg task_id workspace_id channels
              include_canvases max_age_days custom_instruction) task_id)
    ∧ (∀ (reg2 : Registry) (task_id2 : String),
        (get_task_status reg2 task_id2).2 = reg2
        ∧ (get_task_results reg2 task_id2).2 = reg2) := by
  have htrace :
      statusTrace env reg task_id workspace_id channels include_canvases
          max_age_days custom_instruction = ["queued", "processing", "completed"]
        ∨ statusTrace env reg task_id workspace_id channels include_canvases
          max_age_days custom_instruction = ["queued", "processing", "failed"] := by
    cases hpb : pipelineBody env workspace_id channels include_canvases
        max_age_days custom_instruction with
    | ok result =>
      left
      simp [statusTrace, workerStates, process_workspace_data, hpb,
        regFind_update_self, hfind, hq]
    | error e =>
      right
      simp [statusTrace, workerStates, process_workspace_data, hpb,
        regFind_update_self, hfind, hq]
  refine ⟨htrace, ?_, ?_, ?_, ?_, ?_⟩
  · rcases htrace with h | h <;> rw [h] <;>
      exact List.chain'_cons.mpr ⟨by decide,
        List.chain'_cons.mpr ⟨by decide, List.chain'_singleton _⟩⟩
  · intro s hs
    cases hpb : pipelineBody env workspace_id channels include_canvases
        max_age_days custom_instruction with
    | ok result =>
      simp [process_workspace_data, hpb, regFind_update_self, hfind] at hs
      exact Or.inl hs.symm
    | error e =>
      simp [process_workspace_data, hpb, regFind_update_self, hfind] at hs
      exact Or.inr hs.symm
  · intro task_id2 workspace_id2 channels2 include_canvases2 max_age_days2
      custom_instruction2 now2 hne
    generalize process_workspace_data env reg task_id workspace_id channels
      include_canvases max_age_days custom_instruction = X
    simp only [start_processing_task]
    exact regFind_insert_ne _ _ _ _ (Ne.symm hne)
  · intro env2 task_id2 workspace_id2 channels2 include_canvases2
      max_age_days2 custom_instruction2 hne
    generalize process_workspace_data env reg task_id workspace_id channels
      include_canvases max_age_days custom_instruction = X
    cases hpb : pipelineBody env2 workspace_id2 channels2 include_canvases2
        max_age_days2 custom_instruction2 with
    | ok result =>
      simp only [process_workspace_data, hpb]
      rw [regFind_update_ne _ _ _ _ (Ne.symm hne),
        regFind_update_ne _ _ _ _ (Ne.symm hne)]
    | error e =>
      simp only [process_workspace_data, hpb]
      rw [regFind_update_ne _ _ _ _ (Ne.symm hne),
        regFind_update_ne _ _ _ _ (Ne.symm hne)]
  · intro reg2 task_id2
    refine ⟨?_, ?_⟩
    · cases h : regFind reg2 task_id2 with
      | none => simp [get_task_status, h]
      | some t2 => simp [get_task_status, h]
    · cases h : regFind reg2 task_id2 with
      | none => simp [get_task_results, h]
      | some t2 =>
        by_cases hs : t2.status = "completed" <;> simp [get_task_results, h, hs]

theorem C1_task_status_state_machine_witness :
    (statusTrace demoEnv demoQueuedReg "t1" "W1" none true none none
        = ["queued", "processing", "completed"]
      ∨ statusTrace demoEnv demoQueuedReg "t1" "W1" none true none none
        = ["queued", "processing", "failed"])
    ∧ List.Chain' (fun a b => statusRank a < statusRank b)
        (statusTrace demoEnv demoQueuedReg "t1" "W1" none true none none) := by
  have h := C1_task_status_state_machine demoEnv demoQueuedReg "t1" "W1"
    none true none none demoQueuedTask rfl rfl
  exact ⟨h.1, h.2.1⟩

theorem except_bind_ok {α β : Type} (a : α) (f : α → Except String β) :
    (Except.ok a >>= f) = f a := rfl

theorem except_bind_error {α β : Type} (e : String) (f : α → Except String β) :
    ((Except.error e : Except String α) >>= f) = Except.error e := rfl

theorem except_throw_bind {α β : Type} (e : String) (f : α → Except String β) :
    ((throw e : Except String α) >>= f) = Except.error e := rfl

/-- C5: when the corpus built after filtering is empty, the pipeline raises
the ProcessingError "No data to process after filtering" (the
EmptyCorpusError of the spec) and the worker records the failure: the task
ends with status "failed", the error message stored verbatim, and the
results field untouched (no result is produced). -/
theorem C5_empty_corpus_fails_task (env : Env) (reg : Registry)
    (task_id workspace_id : String) (channels : Option (List String))
    (include_canvases : Bool) (max_age_days : Option Int)
    (custom_instruction : Option String) (t : TaskRecord)
    (ws : SlackWorkspaceSchema)
    (hfind : regFind reg task_id = some t)
    (hfetch : env.fetch_all_workspace_data workspace_id = .ok ws)
    (hempty : prepare_documents
        { ws with channels := (filterByAge env.now max_age_days
                                (filterChannels channels ws.channels)) } = []) :
    pipelineBody env workspace_id channels include_canvases max_age_days
        custom_instruction = .error "No data to process after filtering"
    ∧ regFind (process_workspace_data env reg task_id workspace_id channels
        include_canvases max_age_days custom_instruction) task_id
      = some { t with
                 status := "failed",
                 completed_at := some env.doneAt,
                 error := some "No data to process after filtering" } := by
  have hpb : pipelineBody env workspace_id channels include_canvases
      max_age_days custom_instruction
      = .error "No data to process after filtering" := by
    simp [pipelineBody, hfetch, except_bind_ok, hempty, except_bind_error,
      except_throw_bind]
  refine ⟨hpb, ?_⟩
  simp [process_workspace_data, hpb, regFind_update_self, hfind]

theorem C5_empty_corpus_fails_task_witness :
    pipelineBody emptyEnv "W2" none true none none
      = .error "No data to process after filtering"
    ∧ regFind (process_workspace_data emptyEnv demoQueuedReg "t1" "W2"
        none true none none) "t1"
      = some { demoQueuedTask with
                 status := "failed",
                 completed_at := some 1000500,
                 error := some "No data to process after filtering" } :=
  C5_empty_corpus_fails_task emptyEnv demoQueuedReg "t1" "W2" none true
    none none demoQueuedTask emptyWs rfl rfl rfl

/-- C6 (code bug): `_prepare_documents` is called without the
include_canvases flag, so even a run with include_canvases = false builds a
corpus containing a canvas-derived Document (which the pipeline then embeds
in the vector store feeding topic identification), while the canvas-summary
map of the very same run correctly stays empty.  Concretely: wsC6 holds one
non-empty message and one canvas, and the pipeline is run with
include_canvases = false. -/
theorem C6_corpus_contains_canvas_despite_flag :
    ((prepare_documents wsC6).filter
        (fun d => d.metadata.source_type == "canvas")).length = 1
    ∧ (∃ r, pipelineBody envC6 "W1" none false none none = .ok r
        ∧ r.canvas_summaries = []) :=
  ⟨rfl, resC6, rfl, rfl⟩

/-- C7 counterexample: with maxAgeDays = 7, now = 864000 and cutoff 259200,
a retained parent message (timestamp 800000) carries a reply with timestamp
0; the corpus still contains that reply's Document, so a reply reached
directly during corpus construction is NOT individually checked against the
age cutoff, contradicting the claim. -/
theorem C7_counterexample :
    ¬ (∀ d ∈ corpusC7, ageCutoff 864000 7 ≤ d.metadata.timestamp) := by
  intro h
  have hm : replyDocOf wsC7.users chanC7 msgC7 replyOld ∈ corpusC7 := by decide
  exact absurd (h _ hm) (by decide)

/-- C7 amended: when maxAgeDays is set (non-zero), exactly the top-level
messages with timestamp at least now - maxAgeDays are kept per channel
(dropped messages take their replies with them, since replies live inside
the message), and every reply of a retained non-empty message enters the
corpus with no age check of its own. -/
theorem C7_amended_age_filter (now d : Int) (hd : d ≠ 0)
    (users : List SlackUserSchema) (c : SlackChannelSchema)
    (m r : SlackMessageSchema) :
    filterByAge now (some d) [c]
      = [{ c with messages := (c.messages.filter
                                (fun m2 => ageCutoff now d ≤ m2.timestamp)) }]
    ∧ (∀ m2, m2 ∈ (filterChannelByAge (ageCutoff now d) c).messages
        ↔ m2 ∈ c.messages ∧ ageCutoff now d ≤ m2.timestamp)
    ∧ (pyStrip m.text ≠ "" → r ∈ m.replies →
        replyDocOf users c m r ∈ docsOfMessage users c m) := by
  refine ⟨?_, ?_, ?_⟩
  · simp [filterByAge, hd, filterChannelByAge]
  · intro m2
    simp [filterChannelByAge, List.mem_filter]
  · intro htext hr
    simp only [docsOfMessage, htext, if_false]
    exact List.mem_cons_of_mem _ (List.mem_map_of_mem _ hr)

theorem C7_amended_age_filter_witness :
    (msgC7 ∈ (filterChannelByAge (ageCutoff 864000 7) chanC7).messages
      ↔ msgC7 ∈ chanC7.messages ∧ ageCutoff 864000 7 ≤ msgC7.timestamp)
    ∧ replyDocOf wsC7.users chanC7 msgC7 replyOld
        ∈ docsOfMessage wsC7.users chanC7 msgC7 := by
  have h := C7_amended_age_filter 864000 7 (by decide) wsC7.users chanC7
    msgC7 replyOld
  exact ⟨h.2.1 msgC7, h.2.2 (by decide) (List.Mem.head _)⟩

/-- C8 counterexample: a retained message "hi" carrying a reply whose text
is the empty string still yields a Document for that reply (replies are
never text-filtered), so the corpus contains a Document with empty text,
contradicting the claim. -/
theorem C8_counterexample :
    ¬ (∀ d ∈ prepare_documents wsC8, pyStrip d.page_content ≠ "") := by
  intro h
  have hm : replyDocOf wsC8.users chanC8 msgC8 replyEmpty
      ∈ prepare_documents wsC8 := by decide
  exact h _ hm (by decide)

/-- C8 amended: a top-level message whose text strips to empty produces
zero Documents, a retained message produces exactly one Document for itself
plus one per reply, where the message Document's text is never
empty-stripped but a reply Document carries the reply's text verbatim
(possibly empty, since replies are not filtered); each canvas always
produces exactly one Document whose text starts with the "Canvas: {title}"
header and is therefore never empty. -/
theorem C8_amended_document_creation (users : List SlackUserSchema)
    (channel : SlackChannelSchema) (message : SlackMessageSchema)
    (canvas : SlackCanvasSchema) :
    (pyStrip message.text = "" → docsOfMessage users channel message = [])
    ∧ (pyStrip message.text ≠ "" →
        (docsOfMessage users channel message).length
          = 1 + message.replies.length)
    ∧ (∀ dm ∈ docsOfMessage users channel message,
        dm.metadata.source_type = "message" → pyStrip dm.page_content ≠ "")
    ∧ (∀ r ∈ message.replies,
        (replyDocOf users channel message r).page_content = r.text)
    ∧ (docsOfCanvas users canvas).page_content
        = "Canvas: " ++ canvas.title ++ "\n\n"
            ++ canvasBlocksText canvas.content := by
  refine ⟨?_, ?_, ?_, ?_, rfl⟩
  · intro h
    simp [docsOfMessage, h]
  · intro h
    simp [docsOfMessage, h, Nat.add_comm]
  · intro dm hdm hsrc
    by_cases h : pyStrip message.text = ""
    · simp [docsOfMessage, h] at hdm
    · simp [docsOfMessage, h] at hdm
      rcases hdm with rfl | ⟨r, hr, rfl⟩
      · simpa [msgMetadata] using h
      · simp [replyDocOf, msgMetadata] at hsrc
  · intro r hr
    rfl

theorem C8_amended_document_creation_witness :
    (docsOfMessage wsC8.users chanC8 msgC8).length = 1 + msgC8.replies.length
    ∧ (replyDocOf wsC8.users chanC8 msgC8 replyEmpty).page_content = ""
    ∧ docsOfMessage wsC8.users chanC8 emptyMsg = [] := by
  have h := C8_amended_document_creation wsC8.users chanC8 msgC8 canvasC6
  have h2 := C8_amended_document_creation wsC8.users chanC8 emptyMsg canvasC6
  refine ⟨h.2.1 (by decide), ?_, h2.1 (by decide)⟩
  exact (h.2.2.2.1 replyEmpty (List.Mem.head _)).trans rfl

/-- C9 counterexample: the fallback split of `_extract_key_insights` keeps
empty lines: on the malformed response "a\n\nb" the code produces the
three-element list containing an empty-string insight, not the two
non-empty lines the claim requires. -/
theorem C9_counterexample :
    extract_key_insights_parse "a\n\nb"
      = [Json.str "a", Json.str "", Json.str "b"]
    ∧ extract_key_insights_parse "a\n\nb"
      ≠ ((pySplitNL (pyStrip "a\n\nb")).filter (fun l => !(l == ""))).map
          Json.str := by
  have h1 : extract_key_insights_parse "a\n\nb"
      = [Json.str "a", Json.str "", Json.str "b"] := rfl
  have h2 : ((pySplitNL (pyStrip "a\n\nb")).filter (fun l => !(l == ""))).map
      Json.str = [Json.str "a", Json.str "b"] := rfl
  refine ⟨h1, ?_⟩
  rw [h1, h2]
  intro h
  have := congrArg List.length h
  simp at this

/-- C9 amended: insight parsing is two-tier: a response that is a valid
JSON list is returned exactly; any other response (invalid JSON, or valid
non-list JSON) is stripped and split on line breaks, every resulting line -
including empty interior lines - becoming one insight; the step itself is a
total function and never fails the task.  The claim's concrete example
"line one\nline two" parses to exactly its two lines. -/
theorem C9_amended_two_tier_parse (s : String) (l : List Json) (v : Json) :
    (json_loads s = some (Json.arr l) → extract_key_insights_parse s = l)
    ∧ (json_loads s = none →
        extract_key_insights_parse s = (pySplitNL (pyStrip s)).map Json.str)
    ∧ (json_loads s = some v → (∀ l2, v ≠ Json.arr l2) →
        extract_key_insights_parse s = (pySplitNL (pyStrip s)).map Json.str)
    ∧ extract_key_insights_parse "line one\nline two"
        = [Json.str "line one", Json.str "line two"] := by
  refine ⟨?_, ?_, ?_, rfl⟩
  · intro h
    simp [extract_key_insights_parse, h]
  · intro h
    simp [extract_key_insights_parse, h]
  · intro h hnl
    cases v with
    | arr l2 => exact absurd rfl (hnl l2)
    | null => simp [extract_key_insights_parse, h]
    | bool b => simp [extract_key_insights_parse, h]
    | num x => simp [extract_key_insights_parse, h]
    | str x => simp [extract_key_insights_parse, h]
    | obj f => simp [extract_key_insights_parse, h]

theorem C9_amended_two_tier_parse_witness :
    extract_key_insights_parse "[\"x\", 2]" = [Json.str "x", Json.num "2"]
    ∧ extract_key_insights_parse "a\n\nb"
        = (pySplitNL (pyStrip "a\n\nb")).map Json.str
    ∧ extract_key_insights_parse "42"
        = (pySplitNL (pyStrip "42")).map Json.str := by
  refine ⟨?_, ?_, ?_⟩
  · exact (C9_amended_two_tier_parse "[\"x\", 2]"
      [Json.str "x", Json.num "2"] Json.null).1 rfl
  · exact (C9_amended_two_tier_parse "a\n\nb" [] Json.null).2.1 rfl
  · exact (C9_amended_two_tier_parse "42" [] (Json.num "42")).2.2.1 rfl
      (fun l2 h => Json.noConfusion h)

/-- C10: a reply Document's has_replies and has_reactions flags are the
parent message's values (the metadata dict is copied from the parent and
those two keys are not overwritten), while the identifying fields are taken
from the reply itself, with parent_message_id pointing at the parent and
source_type "reply". -/
theorem C10_reply_metadata_from_parent (users : List SlackUserSchema)
    (channel : SlackChannelSchema) (message reply : SlackMessageSchema)
    (htext : pyStrip message.text ≠ "") (hr : reply ∈ message.replies) :
    replyDocOf users channel message reply
        ∈ docsOfMessage users channel message
    ∧ (replyDocOf users channel message reply).metadata.has_replies
        = some (!message.replies.isEmpty)
    ∧ (replyDocOf users channel message reply).metadata.has_reactions
        = some (!message.reactions.isEmpty)
    ∧ (replyDocOf users channel message reply).metadata.message_id
        = some reply.id
    ∧ (replyDocOf users channel message reply).metadata.user_id = reply.user
    ∧ (replyDocOf users channel message reply).metadata.user_name
        = userMapGet users reply.user
    ∧ (replyDocOf users channel message reply).metadata.timestamp
        = reply.timestamp
    ∧ (replyDocOf users channel message reply).metadata.parent_message_id
        = some message.id
    ∧ (replyDocOf users channel message reply).metadata.source_type
        = "reply" := by
  refine ⟨?_, rfl, rfl, rfl, rfl, rfl, rfl, rfl, rfl⟩
  simp only [docsOfMessage, htext, if_false]
  exact List.mem_cons_of_mem _ (List.mem_map_of_mem _ hr)

theorem C10_reply_metadata_from_parent_witness :
    replyDocOf wsC8.users chanC8 msgC8 replyEmpty
        ∈ docsOfMessage wsC8.users chanC8 msgC8
    ∧ (replyDocOf wsC8.users chanC8 msgC8 replyEmpty).metadata.has_replies
        = some true := by
  have h := C10_reply_metadata_from_parent wsC8.users chanC8 msgC8 replyEmpty
    (by decide) (List.Mem.head _)
  exact ⟨h.1, h.2.1⟩
